import Mathlib

/-!
Shallow embedding of the `qtrace` trace model (src/src/main.rs): the
`Trace` data type, its JSON parser (`Trace::parse`, `Trace::parse_query`,
`Trace::number_as_millis`), the aggregator (`query_time`) and the renderer
(`print_brief_trace`), together with theorems checking the specification's
claims about them.

Modelling conventions:
- `serde_json::Value` is embedded as `JValue`; numbers carry the serde
  distinction between a `u64`-backed non-negative integer (`posInt`), an
  `i64`-backed negative integer (`negInt m`, denoting `-(m+1)`), and any
  other number (`float`, carrying its display text).  `as_u64` succeeds
  exactly on `posInt`, as in serde.
- JSON objects are association lists.  serde's map has unique keys
  (duplicates are collapsed during JSON parsing) and iterates in key-sorted
  order; every concrete object written below has unique, sorted keys, so
  list order and serde order agree.
- `std::time::Duration` values are embedded as their millisecond count
  (`Nat`): every duration in this program is built by
  `Duration::from_millis` and read back by `as_millis`, which round-trip.
- Fallible Rust code (`anyhow::Result`) becomes `Except TraceError`;
  runtime panics of infallible Rust code (`Duration - Duration`, and
  `usize` subtraction under debug overflow checks) become
  `Except RustPanic`.
- `println!` output is modelled as the list of emitted text lines; a
  format string beginning with a newline contributes an empty line first.
-/

/-- serde_json number: `u64` non-negative integer, negative integer
(`negInt m` denotes `-(m+1)`), or any other number (kept as display text;
`as_u64` fails on it). -/
inductive JNum where
  | posInt (n : Nat)
  | negInt (m : Nat)
  | float (s : String)

/-- serde_json::Value, with objects as association lists (see module
header for the unique/sorted-keys convention). -/
inductive JValue where
  | null
  | bool (b : Bool)
  | num (n : JNum)
  | str (s : String)
  | arr (xs : List JValue)
  | obj (kvs : List (String × JValue))

namespace JValue

/-- `Value::is_object`. -/
def is_object : JValue → Bool
  | .obj _ => true
  | _ => false

/-- `Value::as_u64`: `Some` exactly for a `u64`-backed non-negative
integer. -/
def as_u64 : JValue → Option Nat
  | .num (.posInt n) => some n
  | _ => none

/-- Key lookup in an object's entry list (serde map `get`). -/
def jlookup : List (String × JValue) → String → Option JValue
  | [], _ => none
  | (k, v) :: rest, key => if k = key then some v else jlookup rest key

/-- `value[key]` (the `Index<&str>` impl): the entry's value when `value`
is an object containing `key`, and `Value::Null` otherwise. -/
def index (v : JValue) (key : String) : JValue :=
  match v with
  | .obj kvs => (jlookup kvs key).getD .null
  | _ => .null

/-- Hex digit used by the string escaper (serde uses lowercase hex). -/
def hexDigit (n : Nat) : Char :=
  if n < 10 then Char.ofNat (48 + n) else Char.ofNat (87 + n)

/-- serde_json's escaping of one character inside a JSON string. -/
def escapeChar (c : Char) : String :=
  if c = '"' then "\\\""
  else if c = '\\' then "\\\\"
  else if c = '\n' then "\\n"
  else if c = '\r' then "\\r"
  else if c = '\t' then "\\t"
  else if c = Char.ofNat 8 then "\\b"
  else if c = Char.ofNat 12 then "\\f"
  else if c.toNat < 32 then
    "\\u00" ++ String.mk [hexDigit (c.toNat / 16), hexDigit (c.toNat % 16)]
  else String.singleton c

/-- Escaping of a whole JSON string body. -/
def escapeString (s : String) : String := String.join (s.toList.map escapeChar)

end JValue

mutual

/-- `Value::to_string()`: serde_json's compact serialization. -/
def jvToString : JValue → String
  | .null => "null"
  | .bool b => if b then "true" else "false"
  | .num (.posInt n) => toString n
  | .num (.negInt m) => "-" ++ toString (m + 1)
  | .num (.float s) => s
  | .str s => "\"" ++ JValue.escapeString s ++ "\""
  | .arr xs => "[" ++ jvArrToString xs ++ "]"
  | .obj kvs => "\x7b" ++ jvObjToString kvs ++ "\x7d"

/-- Compact serialization of an array's elements (comma-separated). -/
def jvArrToString : List JValue → String
  | [] => ""
  | [v] => jvToString v
  | v :: rest => jvToString v ++ "," ++ jvArrToString rest

/-- Compact serialization of an object's entries (comma-separated
`"key":value`). -/
def jvObjToString : List (String × JValue) → String
  | [] => ""
  | [(k, v)] => "\"" ++ JValue.escapeString k ++ "\":" ++ jvToString v
  | (k, v) :: rest =>
      "\"" ++ JValue.escapeString k ++ "\":" ++ jvToString v ++ "," ++ jvObjToString rest

end

/-- The parse errors of `Trace::parse` / `Trace::parse_query`, one
constructor per distinct `anyhow!` message in the source:
`notADuration key` is "Invalid trace: {key} is not a duration",
`blockNotANumber` is "Invalid trace: block is not a number",
`entityCountNotANumber` is "Invalid trace: entity count is not a number",
`notAnObject name` is "Invalid trace: {name} is not an object", and
`rootNotAnObject` is "Invalid trace: root is not an object". -/
inductive TraceError where
  | notADuration (key : String)
  | blockNotANumber
  | entityCountNotANumber
  | notAnObject (name : String)
  | rootNotAnObject
deriving DecidableEq

/-- The `Trace` enum.  Durations are millisecond counts (`Nat`),
`block` and `entity_count` are `usize`/`u64` values (`Nat`); `vars`
embeds the source field `variables`, a reserved word in Lean. -/
inductive Trace where
  | root (query vars query_id : String) (block : Nat)
      (elapsed conn_wait permit_wait : Nat) (children : List (String × Trace))
  | query (query : String) (elapsed conn_wait permit_wait : Nat)
      (entity_count : Nat) (children : List (String × Trace))

/-- The `entry[key].as_u64().ok_or_else(…)` pattern shared by
`number_as_millis`, the `block` extraction and the `entity_count`
extraction: read `entry[key]` as a `u64`, with `err` the error produced
for any other shape (including an absent key, which indexes to `Null`). -/
def u64_field (entry : JValue) (key : String) (err : TraceError) : Except TraceError Nat :=
  match (entry.index key).as_u64 with
  | some n => Except.ok n
  | none => Except.error err

/-- `Trace::number_as_millis`: read `entry[key]` as a `u64` and interpret
it as a duration in milliseconds; the error is
"Invalid trace: {key} is not a duration". -/
def Trace.number_as_millis (entry : JValue) (key : String) : Except TraceError Nat :=
  u64_field entry key (.notADuration key)

mutual

/-- `Trace::parse_query`: a child node must be an object; its
object-valued entries are recursively parsed as children (in iteration
order), then `elapsed_ms`, `conn_wait_ms`, `permit_wait_ms` and
`entity_count` are extracted; the node's `query` field stores the whole
object's serialization. -/
def Trace.parse_query (name : String) (query : JValue) : Except TraceError (String × Trace) :=
  match query with
  | .obj kvs => do
      let children ← Trace.parse_children kvs
      let elapsed ← Trace.number_as_millis (.obj kvs) "elapsed_ms"
      let conn_wait ← Trace.number_as_millis (.obj kvs) "conn_wait_ms"
      let permit_wait ← Trace.number_as_millis (.obj kvs) "permit_wait_ms"
      let entity_count ← u64_field (.obj kvs) "entity_count" TraceError.entityCountNotANumber
      Except.ok (name,
        Trace.query (jvToString (.obj kvs)) elapsed conn_wait permit_wait entity_count children)
  | _ => Except.error (.notAnObject name)

/-- The `for (key, value) in …` loop of `parse` / `parse_query`: each
entry whose value is an object is parsed as a child, every other entry is
skipped; the first child error aborts the loop. -/
def Trace.parse_children : List (String × JValue) → Except TraceError (List (String × Trace))
  | [] => Except.ok []
  | (key, value) :: rest =>
      if value.is_object then do
        let child ← Trace.parse_query key value
        let others ← Trace.parse_children rest
        Except.ok (child :: others)
      else Trace.parse_children rest

end

/-- `Trace::parse`: the root must be an object; children are parsed from
its object-valued entries, then `block` (a number) and the three duration
fields are extracted; `query`, `variables` and `query_id` store the
serialization of whatever sits at those keys (`Null`, hence `"null"`,
when absent) and can never fail. -/
def Trace.parse (root : JValue) : Except TraceError Trace :=
  match root with
  | .obj kvs => do
      let children ← Trace.parse_children kvs
      let block ← u64_field (.obj kvs) "block" TraceError.blockNotANumber
      let elapsed ← Trace.number_as_millis (.obj kvs) "elapsed_ms"
      let conn_wait ← Trace.number_as_millis (.obj kvs) "conn_wait_ms"
      let permit_wait ← Trace.number_as_millis (.obj kvs) "permit_wait_ms"
      Except.ok (Trace.root
        (jvToString (JValue.index (.obj kvs) "query"))
        (jvToString (JValue.index (.obj kvs) "variables"))
        (jvToString (JValue.index (.obj kvs) "query_id"))
        block elapsed conn_wait permit_wait children)
  | _ => Except.error TraceError.rootNotAnObject

/-- `Trace::query_id`: the root's id, and the sentinel "none" for a
`Query` node. -/
def Trace.the_query_id : Trace → String
  | .root _ _ qid _ _ _ _ _ => qid
  | .query _ _ _ _ _ _ => "none"

mutual

/-- The aggregator `query_time` (nested fn of `print_brief_trace`):
a `Root` contributes the sum over its children, a `Query` its own
`elapsed` plus the sum over its children. -/
def query_time : Trace → Nat
  | .root _ _ _ _ _ _ _ children => query_time_sum children
  | .query _ elapsed _ _ _ children => elapsed + query_time_sum children

/-- `children.iter().map(|(_, trace)| query_time(trace)).sum()`. -/
def query_time_sum : List (String × Trace) → Nat
  | [] => 0
  | (_, t) :: rest => query_time t + query_time_sum rest

end

/-- The runtime panics the renderer can hit: `Duration - Duration`
overflow (panics in every build profile) and `usize` subtraction
overflow (panics under debug overflow checks). -/
inductive RustPanic where
  | durationSubOverflow
  | usizeSubOverflow
deriving DecidableEq

/-- Subtraction on `Nat` that reports underflow instead of truncating,
the checked core of both panicking subtractions above. -/
def checked_sub (a b : Nat) : Option Nat := if b ≤ a then some (a - b) else none

/-- Rust `Duration - Duration`: panics ("overflow when subtracting
durations") whenever the subtrahend exceeds the minuend, in every build
profile. -/
def sub_duration (a b : Nat) : Except RustPanic Nat :=
  match checked_sub a b with
  | some d => Except.ok d
  | none => Except.error RustPanic.durationSubOverflow

/-- Rust `usize` subtraction under debug overflow checks: panics
("attempt to subtract with overflow") on underflow. -/
def sub_usize (a b : Nat) : Except RustPanic Nat :=
  match checked_sub a b with
  | some d => Except.ok d
  | none => Except.error RustPanic.usizeSubOverflow

/-- Rust `format!` left-justified minimum-width padding (`{x:w$}` on a
string): pad on the right with spaces up to width `w`; a longer value is
kept whole. -/
def fmtPadRight (s : String) (w : Nat) : String :=
  s ++ String.mk (List.replicate (w - s.length) ' ')

/-- Rust `format!` right-justified minimum-width padding (`{x:w$}` on a
number, here already rendered to text). -/
def fmtPadLeft (s : String) (w : Nat) : String :=
  String.mk (List.replicate (w - s.length) ' ') ++ s

mutual

/-- `print_brief_trace`, with its output captured as the list of emitted
lines and its possible panics made explicit.  A `Root` first computes
`qt = query_time(trace)` and `pt = *elapsed - qt` (a panicking `Duration`
subtraction), prints its own line (whose name field width `48 - indent`
is a `usize` subtraction), recurses into the children at `indent + 2`,
then prints a blank line and the three summary lines.  A `Query` prints
its line (name field width `50 - indent`, plus the entity count) and
recurses at `indent + 2`. -/
def print_brief_trace (name : String) (trace : Trace) (indent : Nat) :
    Except RustPanic (List String) :=
  match trace with
  | .root q v qid b elapsed cw pw children => do
      let qt := query_time (.root q v qid b elapsed cw pw children)
      let pt ← sub_duration elapsed qt
      let rest ← sub_usize 48 indent
      let line := fmtPadRight " " indent ++ fmtPadRight name rest ++ " " ++
        fmtPadLeft (toString elapsed) 7 ++ "ms"
      let childLines ← print_brief_children children (indent + 2)
      Except.ok ([line] ++ childLines ++
        ["",
         "query:      " ++ fmtPadLeft (toString qt) 7 ++ "ms",
         "other:      " ++ fmtPadLeft (toString pt) 7 ++ "ms",
         "total:      " ++ fmtPadLeft (toString elapsed) 7 ++ "ms"])
  | .query _ elapsed _ _ entity_count children => do
      let rest ← sub_usize 50 indent
      let line := fmtPadRight " " indent ++ fmtPadRight name rest ++ " " ++
        fmtPadLeft (toString elapsed) 7 ++ "ms [" ++
        fmtPadLeft (toString entity_count) 7 ++ " entities]"
      let childLines ← print_brief_children children (indent + 2)
      Except.ok ([line] ++ childLines)

/-- The `for (name, trace) in children` rendering loop at one indent. -/
def print_brief_children : List (String × Trace) → Nat → Except RustPanic (List String)
  | [], _ => Except.ok []
  | (name, t) :: rest, indent => do
      let first ← print_brief_trace name t indent
      let others ← print_brief_children rest indent
      Except.ok (first ++ others)

end

mutual

/-- True when a subtree consists solely of `Query` nodes — the shape
`Trace::parse_query` produces for every child subtree. -/
def query_only : Trace → Bool
  | .root _ _ _ _ _ _ _ _ => false
  | .query _ _ _ _ _ cs => children_query_only cs

/-- `query_only` over a children list. -/
def children_query_only : List (String × Trace) → Bool
  | [] => true
  | (_, t) :: rest => query_only t && children_query_only rest

end

mutual

/-- Nesting depth of a subtree counted in `Query` levels (a childless
`Query` node has depth 1; a `Root` contributes no level of its own). -/
def query_depth : Trace → Nat
  | .root _ _ _ _ _ _ _ cs => children_max_depth cs
  | .query _ _ _ _ _ cs => 1 + children_max_depth cs

/-- Maximum `query_depth` over a children list. -/
def children_max_depth : List (String × Trace) → Nat
  | [] => 0
  | (_, t) :: rest => max (query_depth t) (children_max_depth rest)

end

/-- The concrete trace of C1's example: a root with `elapsed` 200ms and
exactly two childless `Query` children with `elapsed` 50ms and 70ms. -/
def c1_example_root : Trace :=
  Trace.root "q" "v" "i" 0 200 0 0
    [("a", Trace.query "qa" 50 0 0 0 []), ("b", Trace.query "qb" 70 0 0 0 [])]

/-- An inconsistent trace: the root's `elapsed` is 100ms but its single
child's `query_time` is 120ms. -/
def c2_failing_root : Trace :=
  Trace.root "q" "v" "i" 0 100 0 0 [("a", Trace.query "qa" 120 0 0 0 [])]

/-- The entries of a root object carrying only the numeric fields:
`query`, `variables` and `query_id` are absent. -/
def c3_missing_query_kvs : List (String × JValue) :=
  [("block", .num (.posInt 1)), ("conn_wait_ms", .num (.posInt 3)),
   ("elapsed_ms", .num (.posInt 2)), ("permit_wait_ms", .num (.posInt 4))]

/-- A root object with `query` (and `variables`, `query_id`) absent. -/
def c3_missing_query_obj : JValue := .obj c3_missing_query_kvs

/-- An entry value keyed "foo" that is itself an object (a well-formed
child node). -/
def c4_foo_obj : JValue :=
  .obj [("conn_wait_ms", .num (.posInt 0)), ("elapsed_ms", .num (.posInt 1)),
        ("entity_count", .num (.posInt 5)), ("permit_wait_ms", .num (.posInt 0))]

/-- Entry list with one object-valued entry keyed "foo" amid string- and
number-valued entries. -/
def c4_kvs : List (String × JValue) :=
  [("bar", .str "x"), ("count", .num (.posInt 5)), ("foo", c4_foo_obj)]

/-- The child parsed from `c4_foo_obj`. -/
def c4_child_trace : Trace := Trace.query (jvToString c4_foo_obj) 1 0 0 5 []

/-- Root entry list whose "variables" entry is the JSON string "7". -/
def c5_kvs : List (String × JValue) :=
  [("block", .num (.posInt 1)), ("conn_wait_ms", .num (.posInt 3)),
   ("elapsed_ms", .num (.posInt 2)), ("permit_wait_ms", .num (.posInt 4)),
   ("variables", .str "7")]

/-- The children of the C6/C7 example tree: two `Query` children, the
second with a grandchild. -/
def c6_children : List (String × Trace) :=
  [("child_a", Trace.query "qa" 50 0 0 7 []),
   ("child_b", Trace.query "qb" 70 0 0 9 [("gc", Trace.query "qc" 30 0 0 2 [])])]

/-- The C6 example tree: root elapsed 200ms over `c6_children`
(aggregate query time 150ms). -/
def c6_example_root : Trace := Trace.root "q" "v" "i" 1 200 0 0 c6_children

/-- The lines the renderer emits for `c6_children` at indent 2. -/
def c6_child_lines : List String :=
  ["  child_a                                               50ms [      7 entities]",
   "  child_b                                               70ms [      9 entities]",
   "    gc                                                  30ms [      2 entities]"]

/-- The first line `print_brief_trace` emits for `c6_example_root` at
indent 0. -/
def c7_root_line : String := " root                                                 200ms"

/-- The second line (the first child's line, at indent 2). -/
def c7_child_line : String := "  child_a                                               50ms [      7 entities]"

/-- The single line rendered for a childless `Query` node at indent 2. -/
def c7_witness_lines : List String := ["  child                                                  5ms [      1 entities]"]

/-- Entry list whose `elapsed_ms` is present but is a JSON string. -/
def c8_kvs : List (String × JValue) :=
  [("block", .num (.posInt 1)), ("elapsed_ms", .str "20")]

/-- A children list whose first entry fails to parse (empty child
object, so its `elapsed_ms` is missing). -/
def c8_bad_children : List (String × JValue) := [("a", .obj [])]

/-- Root entry list where `query` is absent, `variables` is a number and
`query_id` is a boolean. -/
def c9_kvs : List (String × JValue) :=
  [("block", .num (.posInt 1)), ("conn_wait_ms", .num (.posInt 3)),
   ("elapsed_ms", .num (.posInt 2)), ("permit_wait_ms", .num (.posInt 4)),
   ("query_id", .bool true), ("variables", .num (.posInt 5))]

/-- A chain of `Query` nodes: `c10_chain n` nests `n + 1` `Query` levels,
with the innermost node carrying 1ms of elapsed time. -/
def c10_chain : Nat → Trace
  | 0 => Trace.query "q" 1 0 0 0 []
  | n + 1 => Trace.query "q" 0 0 0 0 [("c", c10_chain n)]

/-- A `Query` subtree of nesting depth exactly 25. -/
def c10_deep : Trace := c10_chain 24

/-! ### Lemmas and claim theorems -/

theorem ok_bind {ε α β : Type} (a : α) (f : α → Except ε β) :
    (Except.ok a >>= f : Except ε β) = f a := rfl

theorem error_bind {ε α β : Type} (e : ε) (f : α → Except ε β) :
    (Except.error e >>= f : Except ε β) = Except.error e := rfl

theorem except_bind_ok {ε α β : Type} (x : Except ε α) (f : α → Except ε β) (b : β) :
    (x >>= f = Except.ok b) ↔ ∃ a, x = Except.ok a ∧ f a = Except.ok b := by
  cases x <;> simp [Bind.bind, Except.bind]

theorem u64_field_ok (entry : JValue) (key : String) (err : TraceError) (n : Nat)
    (h : (entry.index key).as_u64 = some n) : u64_field entry key err = Except.ok n := by
  simp [u64_field, h]

theorem u64_field_err (entry : JValue) (key : String) (err : TraceError)
    (h : (entry.index key).as_u64 = none) : u64_field entry key err = Except.error err := by
  simp [u64_field, h]

theorem u64_field_ok_iff (entry : JValue) (key : String) (err : TraceError) (n : Nat) :
    u64_field entry key err = Except.ok n ↔ (entry.index key).as_u64 = some n := by
  unfold u64_field
  cases (entry.index key).as_u64 <;> simp

theorem index_absent (kvs : List (String × JValue)) (key : String)
    (h : JValue.jlookup kvs key = none) : JValue.index (.obj kvs) key = JValue.null := by
  simp [JValue.index, h]

theorem as_u64_absent (kvs : List (String × JValue)) (key : String)
    (h : JValue.jlookup kvs key = none) : (JValue.index (.obj kvs) key).as_u64 = none := by
  rw [index_absent kvs key h]; rfl

theorem index_present (kvs : List (String × JValue)) (key : String) (v : JValue)
    (h : JValue.jlookup kvs key = some v) : JValue.index (.obj kvs) key = v := by
  simp [JValue.index, h]

theorem sub_duration_ok (a b : Nat) (h : b ≤ a) : sub_duration a b = Except.ok (a - b) := by
  simp [sub_duration, checked_sub, h]

theorem sub_duration_err (a b : Nat) (h : a < b) :
    sub_duration a b = Except.error RustPanic.durationSubOverflow := by
  simp [sub_duration, checked_sub, Nat.not_le.mpr h]

theorem sub_usize_ok (a b : Nat) (h : b ≤ a) : sub_usize a b = Except.ok (a - b) := by
  simp [sub_usize, checked_sub, h]

theorem sub_usize_err (a b : Nat) (h : a < b) :
    sub_usize a b = Except.error RustPanic.usizeSubOverflow := by
  simp [sub_usize, checked_sub, Nat.not_le.mpr h]

theorem query_time_sum_eq_map_sum (cs : List (String × Trace)) :
    query_time_sum cs = (cs.map (fun p => query_time p.2)).sum := by
  induction cs with
  | nil => simp [query_time_sum]
  | cons hd tl ih => obtain ⟨n, t⟩ := hd; simp [query_time_sum, ih]

theorem query_time_root (q v qid : String) (b e cw pw : Nat) (cs : List (String × Trace)) :
    query_time (Trace.root q v qid b e cw pw cs) = query_time_sum cs := by
  simp [query_time]

theorem query_time_query (q : String) (e cw pw ec : Nat) (cs : List (String × Trace)) :
    query_time (Trace.query q e cw pw ec cs) = e + query_time_sum cs := by
  simp [query_time]

theorem parse_children_nil : Trace.parse_children [] = Except.ok [] := rfl

theorem parse_children_cons_obj (key : String) (value : JValue)
    (rest : List (String × JValue)) (h : value.is_object = true) :
    Trace.parse_children ((key, value) :: rest) =
      (Trace.parse_query key value >>= fun child =>
        Trace.parse_children rest >>= fun others =>
          Except.ok (child :: others)) := by
  simp [Trace.parse_children, h]

theorem parse_children_cons_skip (key : String) (value : JValue)
    (rest : List (String × JValue)) (h : value.is_object = false) :
    Trace.parse_children ((key, value) :: rest) = Trace.parse_children rest := by
  simp [Trace.parse_children, h]

theorem parse_query_obj_eq (name : String) (kvs : List (String × JValue)) :
    Trace.parse_query name (.obj kvs) =
      (Trace.parse_children kvs >>= fun children =>
        Trace.number_as_millis (.obj kvs) "elapsed_ms" >>= fun elapsed =>
        Trace.number_as_millis (.obj kvs) "conn_wait_ms" >>= fun conn_wait =>
        Trace.number_as_millis (.obj kvs) "permit_wait_ms" >>= fun permit_wait =>
        u64_field (.obj kvs) "entity_count" TraceError.entityCountNotANumber >>= fun entity_count =>
          Except.ok (name, Trace.query (jvToString (.obj kvs))
            elapsed conn_wait permit_wait entity_count children)) := by
  simp [Trace.parse_query]

theorem parse_obj_eq (kvs : List (String × JValue)) :
    Trace.parse (.obj kvs) =
      (Trace.parse_children kvs >>= fun children =>
        u64_field (.obj kvs) "block" TraceError.blockNotANumber >>= fun block =>
        Trace.number_as_millis (.obj kvs) "elapsed_ms" >>= fun elapsed =>
        Trace.number_as_millis (.obj kvs) "conn_wait_ms" >>= fun conn_wait =>
        Trace.number_as_millis (.obj kvs) "permit_wait_ms" >>= fun permit_wait =>
          Except.ok (Trace.root
            (jvToString (JValue.index (.obj kvs) "query"))
            (jvToString (JValue.index (.obj kvs) "variables"))
            (jvToString (JValue.index (.obj kvs) "query_id"))
            block elapsed conn_wait permit_wait children)) := by
  simp [Trace.parse]

theorem parse_query_ok_fst (k : String) (v : JValue) (p : String × Trace)
    (h : Trace.parse_query k v = Except.ok p) : p.1 = k := by
  cases v with
  | obj kvs =>
      rw [parse_query_obj_eq] at h
      simp only [except_bind_ok] at h
      obtain ⟨c, _, e, _, cw, _, pw, _, ec, _, hp⟩ := h
      simp only [Except.ok.injEq] at hp
      rw [← hp]
  | null => simp [Trace.parse_query] at h
  | bool b => simp [Trace.parse_query] at h
  | num n => simp [Trace.parse_query] at h
  | str s => simp [Trace.parse_query] at h
  | arr xs => simp [Trace.parse_query] at h

/-- Success characterization of `Trace::parse` on an object: once the
children and the four numeric fields are good, the parse succeeds and the
three string fields are stored as the serialization of whatever sits at
their keys — they are never parsed and never required. -/
theorem parse_obj_ok (kvs : List (String × JValue)) (cs : List (String × Trace))
    (b e cw pw : Nat)
    (hch : Trace.parse_children kvs = Except.ok cs)
    (hb : (JValue.index (.obj kvs) "block").as_u64 = some b)
    (he : (JValue.index (.obj kvs) "elapsed_ms").as_u64 = some e)
    (hcw : (JValue.index (.obj kvs) "conn_wait_ms").as_u64 = some cw)
    (hpw : (JValue.index (.obj kvs) "permit_wait_ms").as_u64 = some pw) :
    Trace.parse (.obj kvs) =
      Except.ok (Trace.root
        (jvToString (JValue.index (.obj kvs) "query"))
        (jvToString (JValue.index (.obj kvs) "variables"))
        (jvToString (JValue.index (.obj kvs) "query_id"))
        b e cw pw cs) := by
  rw [parse_obj_eq, hch, ok_bind,
    u64_field_ok (.obj kvs) "block" TraceError.blockNotANumber b hb, ok_bind,
    Trace.number_as_millis,
    u64_field_ok (.obj kvs) "elapsed_ms" (.notADuration "elapsed_ms") e he, ok_bind,
    Trace.number_as_millis,
    u64_field_ok (.obj kvs) "conn_wait_ms" (.notADuration "conn_wait_ms") cw hcw, ok_bind,
    Trace.number_as_millis,
    u64_field_ok (.obj kvs) "permit_wait_ms" (.notADuration "permit_wait_ms") pw hpw, ok_bind]

theorem print_brief_children_nil (indent : Nat) :
    print_brief_children [] indent = Except.ok [] := by
  simp [print_brief_children]

theorem print_brief_children_cons (name : String) (t : Trace)
    (rest : List (String × Trace)) (indent : Nat) :
    print_brief_children ((name, t) :: rest) indent =
      (print_brief_trace name t indent >>= fun first =>
        print_brief_children rest indent >>= fun others =>
          Except.ok (first ++ others)) := by
  simp [print_brief_children]

theorem pbt_root_eq (name q v qid : String) (b e cw pw : Nat)
    (cs : List (String × Trace)) (indent : Nat) (cl : List String)
    (hpt : query_time_sum cs ≤ e)
    (hrest : indent ≤ 48)
    (hcl : print_brief_children cs (indent + 2) = Except.ok cl) :
    print_brief_trace name (Trace.root q v qid b e cw pw cs) indent =
      Except.ok ([fmtPadRight " " indent ++ fmtPadRight name (48 - indent) ++ " " ++
          fmtPadLeft (toString e) 7 ++ "ms"] ++ cl ++
        ["",
         "query:      " ++ fmtPadLeft (toString (query_time_sum cs)) 7 ++ "ms",
         "other:      " ++ fmtPadLeft (toString (e - query_time_sum cs)) 7 ++ "ms",
         "total:      " ++ fmtPadLeft (toString e) 7 ++ "ms"]) := by
  simp only [print_brief_trace, query_time_root,
    sub_duration_ok e (query_time_sum cs) hpt, ok_bind,
    sub_usize_ok 48 indent hrest, hcl]

theorem pbt_query_eq (name q : String) (e cw pw ec : Nat)
    (cs : List (String × Trace)) (indent : Nat) (cl : List String)
    (hrest : indent ≤ 50)
    (hcl : print_brief_children cs (indent + 2) = Except.ok cl) :
    print_brief_trace name (Trace.query q e cw pw ec cs) indent =
      Except.ok ([fmtPadRight " " indent ++ fmtPadRight name (50 - indent) ++ " " ++
          fmtPadLeft (toString e) 7 ++ "ms [" ++
          fmtPadLeft (toString ec) 7 ++ " entities]"] ++ cl) := by
  simp only [print_brief_trace, sub_usize_ok 50 indent hrest, ok_bind, hcl]

theorem pbt_query_err_width (name q : String) (e cw pw ec : Nat)
    (cs : List (String × Trace)) (indent : Nat) (h : 50 < indent) :
    print_brief_trace name (Trace.query q e cw pw ec cs) indent =
      Except.error RustPanic.usizeSubOverflow := by
  simp only [print_brief_trace, sub_usize_err 50 indent h, error_bind]

theorem pbt_root_err_width (name q v qid : String) (b e cw pw : Nat)
    (cs : List (String × Trace)) (indent : Nat)
    (hpt : query_time_sum cs ≤ e) (h : 48 < indent) :
    print_brief_trace name (Trace.root q v qid b e cw pw cs) indent =
      Except.error RustPanic.usizeSubOverflow := by
  simp only [print_brief_trace, query_time_root,
    sub_duration_ok e (query_time_sum cs) hpt, ok_bind,
    sub_usize_err 48 indent h, error_bind]

theorem pbt_root_err_duration (name q v qid : String) (b e cw pw : Nat)
    (cs : List (String × Trace)) (indent : Nat) (hpt : e < query_time_sum cs) :
    print_brief_trace name (Trace.root q v qid b e cw pw cs) indent =
      Except.error RustPanic.durationSubOverflow := by
  simp only [print_brief_trace, query_time_root,
    sub_duration_err e (query_time_sum cs) hpt, error_bind]

theorem pbt_root_not_ok (name q v qid : String) (b e cw pw : Nat)
    (cs : List (String × Trace)) (indent : Nat) (h : 48 < indent) :
    (print_brief_trace name (Trace.root q v qid b e cw pw cs) indent).isOk = false := by
  rcases Nat.lt_or_ge e (query_time_sum cs) with hlt | hge
  · rw [pbt_root_err_duration name q v qid b e cw pw cs indent hlt]; rfl
  · rw [pbt_root_err_width name q v qid b e cw pw cs indent hge h]; rfl

mutual

theorem render_query_ok :
    ∀ (t : Trace) (name : String) (indent : Nat),
      query_only t = true → indent + 2 * query_depth t ≤ 52 →
      ∃ out, print_brief_trace name t indent = Except.ok out
  | .root q v qid b e cw pw cs, name, indent, hq, _ => by
      simp [query_only] at hq
  | .query q e cw pw ec cs, name, indent, hq, hd => by
      have hcs : children_query_only cs = true := by simpa [query_only] using hq
      have h1 : query_depth (Trace.query q e cw pw ec cs) = 1 + children_max_depth cs := by
        simp [query_depth]
      obtain ⟨cl, hcl⟩ := render_children_ok cs (indent + 2) hcs (by omega)
      exact ⟨_, pbt_query_eq name q e cw pw ec cs indent cl (by omega) hcl⟩

theorem render_children_ok :
    ∀ (cs : List (String × Trace)) (indent : Nat),
      children_query_only cs = true → indent + 2 * children_max_depth cs ≤ 52 →
      ∃ out, print_brief_children cs indent = Except.ok out
  | [], indent, _, _ => ⟨[], print_brief_children_nil indent⟩
  | (n, t) :: rest, indent, hq, hd => by
      have hqp : query_only t = true ∧ children_query_only rest = true := by
        simpa [children_query_only] using hq
      have h1 : children_max_depth ((n, t) :: rest) =
          max (query_depth t) (children_max_depth rest) := by
        simp [children_max_depth]
      have h3 : query_depth t ≤ max (query_depth t) (children_max_depth rest) :=
        Nat.le_max_left _ _
      have h4 : children_max_depth rest ≤ max (query_depth t) (children_max_depth rest) :=
        Nat.le_max_right _ _
      obtain ⟨o1, ho1⟩ := render_query_ok t n indent hqp.1 (by omega)
      obtain ⟨o2, ho2⟩ := render_children_ok rest indent hqp.2 (by omega)
      exact ⟨o1 ++ o2, by rw [print_brief_children_cons, ho1, ok_bind, ho2, ok_bind]⟩

end

/-- A root whose children are `Query`-only subtrees of nesting depth at
most 25 and whose aggregate child time does not exceed its `elapsed`
renders from indent 0 without any panic. -/
theorem render_root_ok (name q v qid : String) (b e cw pw : Nat)
    (cs : List (String × Trace))
    (hq : children_query_only cs = true) (hdep : children_max_depth cs ≤ 25)
    (hqt : query_time_sum cs ≤ e) :
    ∃ out, print_brief_trace name (Trace.root q v qid b e cw pw cs) 0 = Except.ok out := by
  obtain ⟨cl, hcl⟩ := render_children_ok cs 2 hq (by omega)
  exact ⟨_, pbt_root_eq name q v qid b e cw pw cs 0 cl hqt (by omega) hcl⟩

theorem parse_children_ok_keys :
    ∀ (kvs : List (String × JValue)) (cs : List (String × Trace)),
      Trace.parse_children kvs = Except.ok cs →
      cs.map Prod.fst = (kvs.filter (fun p => p.2.is_object)).map Prod.fst := by
  intro kvs
  induction kvs with
  | nil =>
      intro cs h
      rw [parse_children_nil] at h
      simp only [Except.ok.injEq] at h
      simp [← h]
  | cons hd tl ih =>
      obtain ⟨k, v⟩ := hd
      intro cs h
      by_cases hv : v.is_object
      · rw [parse_children_cons_obj k v tl hv] at h
        simp only [except_bind_ok] at h
        obtain ⟨child, hchild, others, hothers, hcs⟩ := h
        simp only [Except.ok.injEq] at hcs
        have hk := parse_query_ok_fst k v child hchild
        rw [← hcs]
        simp [List.filter_cons, hv, hk, ih others hothers]
      · rw [parse_children_cons_skip k v tl (by simpa using hv)] at h
        simp [List.filter_cons, hv, ih cs h]

theorem parse_children_ok_mem :
    ∀ (kvs : List (String × JValue)) (cs : List (String × Trace)),
      Trace.parse_children kvs = Except.ok cs →
      ∀ (k : String) (v : JValue), (k, v) ∈ kvs → v.is_object = true →
        ∃ t, (k, t) ∈ cs ∧ Trace.parse_query k v = Except.ok (k, t) := by
  intro kvs
  induction kvs with
  | nil => intro cs _ k v hm; simp at hm
  | cons hd tl ih =>
      obtain ⟨k0, v0⟩ := hd
      intro cs h k v hm hobj
      by_cases hv : v0.is_object
      · rw [parse_children_cons_obj k0 v0 tl hv] at h
        simp only [except_bind_ok] at h
        obtain ⟨child, hchild, others, hothers, hcs⟩ := h
        simp only [Except.ok.injEq] at hcs
        rcases List.mem_cons.mp hm with heq | htl
        · obtain ⟨hk, hv'⟩ := Prod.mk.injEq .. ▸ heq
          have hk1 := parse_query_ok_fst k0 v0 child hchild
          refine ⟨child.2, ?_, ?_⟩
          · rw [← hcs]
            have : child = (k, child.2) := by
              rw [Prod.ext_iff]; exact ⟨by rw [hk1, hk], rfl⟩
            exact this ▸ List.mem_cons_self _ _
          · have : child = (k, child.2) := by
              rw [Prod.ext_iff]; exact ⟨by rw [hk1, hk], rfl⟩
            rw [← hk, ← hv'] at hchild
            rw [← this]; exact hchild
        · obtain ⟨t, ht, hpq⟩ := ih others hothers k v htl hobj
          exact ⟨t, by rw [← hcs]; exact List.mem_cons_of_mem _ ht, hpq⟩
      · rw [parse_children_cons_skip k0 v0 tl (by simpa using hv)] at h
        rcases List.mem_cons.mp hm with heq | htl
        · exfalso
          obtain ⟨_, hv'⟩ := Prod.mk.injEq .. ▸ heq
          rw [← hv'] at hv
          exact hv hobj
        · exact ih cs h k v htl hobj

theorem sub_usize_ok_inv (a b d : Nat) (h : sub_usize a b = Except.ok d) :
    b ≤ a ∧ d = a - b := by
  by_cases hle : b ≤ a
  · rw [sub_usize_ok a b hle] at h
    simp only [Except.ok.injEq] at h
    exact ⟨hle, h.symm⟩
  · rw [sub_usize_err a b (Nat.not_le.mp hle)] at h
    exact absurd h (by simp)

theorem sub_duration_ok_inv (a b d : Nat) (h : sub_duration a b = Except.ok d) :
    b ≤ a ∧ d = a - b := by
  by_cases hle : b ≤ a
  · rw [sub_duration_ok a b hle] at h
    simp only [Except.ok.injEq] at h
    exact ⟨hle, h.symm⟩
  · rw [sub_duration_err a b (Nat.not_le.mp hle)] at h
    exact absurd h (by simp)

theorem pbt_root_ok_inv (name q v qid : String) (b e cw pw : Nat)
    (cs : List (String × Trace)) (indent : Nat) (out : List String)
    (h : print_brief_trace name (Trace.root q v qid b e cw pw cs) indent = Except.ok out) :
    query_time_sum cs ≤ e ∧ indent ≤ 48 ∧
      ∃ cl, print_brief_children cs (indent + 2) = Except.ok cl ∧
        out = [fmtPadRight " " indent ++ fmtPadRight name (48 - indent) ++ " " ++
            fmtPadLeft (toString e) 7 ++ "ms"] ++ cl ++
          ["",
           "query:      " ++ fmtPadLeft (toString (query_time_sum cs)) 7 ++ "ms",
           "other:      " ++ fmtPadLeft (toString (e - query_time_sum cs)) 7 ++ "ms",
           "total:      " ++ fmtPadLeft (toString e) 7 ++ "ms"] := by
  simp only [print_brief_trace, query_time_root, except_bind_ok] at h
  obtain ⟨pt, hpt, rest, hrest, cl, hcl, hout⟩ := h
  obtain ⟨h1, h2⟩ := sub_duration_ok_inv e (query_time_sum cs) pt hpt
  obtain ⟨h3, h4⟩ := sub_usize_ok_inv 48 indent rest hrest
  simp only [Except.ok.injEq] at hout
  exact ⟨h1, h3, cl, hcl, by rw [← hout, h2, h4]⟩

theorem pbt_query_ok_inv (name q : String) (e cw pw ec : Nat)
    (cs : List (String × Trace)) (indent : Nat) (out : List String)
    (h : print_brief_trace name (Trace.query q e cw pw ec cs) indent = Except.ok out) :
    indent ≤ 50 ∧
      ∃ cl, print_brief_children cs (indent + 2) = Except.ok cl ∧
        out = [fmtPadRight " " indent ++ fmtPadRight name (50 - indent) ++ " " ++
            fmtPadLeft (toString e) 7 ++ "ms [" ++
            fmtPadLeft (toString ec) 7 ++ " entities]"] ++ cl := by
  simp only [print_brief_trace, except_bind_ok] at h
  obtain ⟨rest, hrest, cl, hcl, hout⟩ := h
  obtain ⟨h3, h4⟩ := sub_usize_ok_inv 50 indent rest hrest
  simp only [Except.ok.injEq] at hout
  exact ⟨h3, cl, hcl, by rw [← hout, h4]⟩

theorem pbt_head_indent_run (name : String) (t : Trace) (indent : Nat) (out : List String)
    (h : print_brief_trace name t indent = Except.ok out) :
    ∃ restLine, out.head? = some (fmtPadRight " " indent ++ restLine) := by
  cases t with
  | root q v qid b e cw pw cs =>
      obtain ⟨_, _, cl, _, hout⟩ := pbt_root_ok_inv name q v qid b e cw pw cs indent out h
      refine ⟨fmtPadRight name (48 - indent) ++ (" " ++ (fmtPadLeft (toString e) 7 ++ "ms")), ?_⟩
      rw [hout]
      simp [String.append_assoc]
  | query q e cw pw ec cs =>
      obtain ⟨_, cl, _, hout⟩ := pbt_query_ok_inv name q e cw pw ec cs indent out h
      refine ⟨fmtPadRight name (50 - indent) ++ (" " ++ (fmtPadLeft (toString e) 7 ++
        ("ms [" ++ (fmtPadLeft (toString ec) 7 ++ " entities]")))), ?_⟩
      rw [hout]
      simp [String.append_assoc]

theorem fmtPadRight_space_pos (indent : Nat) (h : 1 ≤ indent) :
    fmtPadRight " " indent = String.mk (List.replicate indent ' ') := by
  obtain ⟨m, rfl⟩ : ∃ m, indent = m + 1 := ⟨indent - 1, by omega⟩
  apply String.ext
  simp [fmtPadRight, String.data_append, List.replicate_succ]
  rfl

theorem fmtPadRight_space_zero : fmtPadRight " " 0 = " " := rfl

theorem parse_children_error_append (l1 l2 : List (String × JValue)) (err : TraceError)
    (h : Trace.parse_children l1 = Except.error err) :
    Trace.parse_children (l1 ++ l2) = Except.error err := by
  induction l1 with
  | nil =>
      rw [parse_children_nil] at h
      exact absurd h (by simp)
  | cons hd tl ih =>
      obtain ⟨k, v⟩ := hd
      by_cases hv : v.is_object
      · rw [parse_children_cons_obj k v tl hv] at h
        rw [List.cons_append, parse_children_cons_obj k v (tl ++ l2) hv]
        cases hpq : Trace.parse_query k v with
        | error e2 =>
            rw [hpq, error_bind] at h
            rw [error_bind]
            exact h
        | ok child =>
            rw [hpq, ok_bind] at h
            rw [ok_bind]
            cases hpc : Trace.parse_children tl with
            | error e2 =>
                rw [hpc, error_bind] at h
                simp only [Except.error.injEq] at h
                rw [ih (by rw [hpc, h]), error_bind]
            | ok others =>
                rw [hpc, ok_bind] at h
                exact absurd h (by simp)
      · rw [parse_children_cons_skip k v tl (by simpa using hv)] at h
        rw [List.cons_append, parse_children_cons_skip k v (tl ++ l2) (by simpa using hv)]
        exact ih h

theorem parse_children_error_root (kvs : List (String × JValue)) (err : TraceError)
    (h : Trace.parse_children kvs = Except.error err) :
    Trace.parse (.obj kvs) = Except.error err := by
  rw [parse_obj_eq, h, error_bind]

theorem parse_children_error_query (name : String) (kvs : List (String × JValue))
    (err : TraceError) (h : Trace.parse_children kvs = Except.error err) :
    Trace.parse_query name (.obj kvs) = Except.error err := by
  rw [parse_query_obj_eq, h, error_bind]

theorem number_as_millis_ok (entry : JValue) (key : String) (n : Nat)
    (h : (entry.index key).as_u64 = some n) :
    Trace.number_as_millis entry key = Except.ok n :=
  u64_field_ok entry key (.notADuration key) n h

theorem number_as_millis_err (entry : JValue) (key : String)
    (h : (entry.index key).as_u64 = none) :
    Trace.number_as_millis entry key = Except.error (.notADuration key) :=
  u64_field_err entry key (.notADuration key) h

theorem parse_err_block (kvs : List (String × JValue)) (cs : List (String × Trace))
    (hch : Trace.parse_children kvs = Except.ok cs)
    (hb : (JValue.index (.obj kvs) "block").as_u64 = none) :
    Trace.parse (.obj kvs) = Except.error TraceError.blockNotANumber := by
  rw [parse_obj_eq, hch, ok_bind,
    u64_field_err (.obj kvs) "block" TraceError.blockNotANumber hb, error_bind]

theorem parse_err_elapsed (kvs : List (String × JValue)) (cs : List (String × Trace)) (b : Nat)
    (hch : Trace.parse_children kvs = Except.ok cs)
    (hb : (JValue.index (.obj kvs) "block").as_u64 = some b)
    (he : (JValue.index (.obj kvs) "elapsed_ms").as_u64 = none) :
    Trace.parse (.obj kvs) = Except.error (TraceError.notADuration "elapsed_ms") := by
  rw [parse_obj_eq, hch, ok_bind,
    u64_field_ok (.obj kvs) "block" TraceError.blockNotANumber b hb, ok_bind,
    number_as_millis_err (.obj kvs) "elapsed_ms" he, error_bind]

theorem parse_err_conn (kvs : List (String × JValue)) (cs : List (String × Trace)) (b e : Nat)
    (hch : Trace.parse_children kvs = Except.ok cs)
    (hb : (JValue.index (.obj kvs) "block").as_u64 = some b)
    (he : (JValue.index (.obj kvs) "elapsed_ms").as_u64 = some e)
    (hc : (JValue.index (.obj kvs) "conn_wait_ms").as_u64 = none) :
    Trace.parse (.obj kvs) = Except.error (TraceError.notADuration "conn_wait_ms") := by
  rw [parse_obj_eq, hch, ok_bind,
    u64_field_ok (.obj kvs) "block" TraceError.blockNotANumber b hb, ok_bind,
    number_as_millis_ok (.obj kvs) "elapsed_ms" e he, ok_bind,
    number_as_millis_err (.obj kvs) "conn_wait_ms" hc, error_bind]

theorem parse_err_permit (kvs : List (String × JValue)) (cs : List (String × Trace))
    (b e cw : Nat)
    (hch : Trace.parse_children kvs = Except.ok cs)
    (hb : (JValue.index (.obj kvs) "block").as_u64 = some b)
    (he : (JValue.index (.obj kvs) "elapsed_ms").as_u64 = some e)
    (hc : (JValue.index (.obj kvs) "conn_wait_ms").as_u64 = some cw)
    (hp : (JValue.index (.obj kvs) "permit_wait_ms").as_u64 = none) :
    Trace.parse (.obj kvs) = Except.error (TraceError.notADuration "permit_wait_ms") := by
  rw [parse_obj_eq, hch, ok_bind,
    u64_field_ok (.obj kvs) "block" TraceError.blockNotANumber b hb, ok_bind,
    number_as_millis_ok (.obj kvs) "elapsed_ms" e he, ok_bind,
    number_as_millis_ok (.obj kvs) "conn_wait_ms" cw hc, ok_bind,
    number_as_millis_err (.obj kvs) "permit_wait_ms" hp, error_bind]

theorem parse_query_err_elapsed (name : String) (kvs : List (String × JValue))
    (cs : List (String × Trace))
    (hch : Trace.parse_children kvs = Except.ok cs)
    (he : (JValue.index (.obj kvs) "elapsed_ms").as_u64 = none) :
    Trace.parse_query name (.obj kvs) = Except.error (TraceError.notADuration "elapsed_ms") := by
  rw [parse_query_obj_eq, hch, ok_bind,
    number_as_millis_err (.obj kvs) "elapsed_ms" he, error_bind]

theorem parse_query_err_conn (name : String) (kvs : List (String × JValue))
    (cs : List (String × Trace)) (e : Nat)
    (hch : Trace.parse_children kvs = Except.ok cs)
    (he : (JValue.index (.obj kvs) "elapsed_ms").as_u64 = some e)
    (hc : (JValue.index (.obj kvs) "conn_wait_ms").as_u64 = none) :
    Trace.parse_query name (.obj kvs) = Except.error (TraceError.notADuration "conn_wait_ms") := by
  rw [parse_query_obj_eq, hch, ok_bind,
    number_as_millis_ok (.obj kvs) "elapsed_ms" e he, ok_bind,
    number_as_millis_err (.obj kvs) "conn_wait_ms" hc, error_bind]

theorem parse_query_err_permit (name : String) (kvs : List (String × JValue))
    (cs : List (String × Trace)) (e cw : Nat)
    (hch : Trace.parse_children kvs = Except.ok cs)
    (he : (JValue.index (.obj kvs) "elapsed_ms").as_u64 = some e)
    (hc : (JValue.index (.obj kvs) "conn_wait_ms").as_u64 = some cw)
    (hp : (JValue.index (.obj kvs) "permit_wait_ms").as_u64 = none) :
    Trace.parse_query name (.obj kvs) =
      Except.error (TraceError.notADuration "permit_wait_ms") := by
  rw [parse_query_obj_eq, hch, ok_bind,
    number_as_millis_ok (.obj kvs) "elapsed_ms" e he, ok_bind,
    number_as_millis_ok (.obj kvs) "conn_wait_ms" cw hc, ok_bind,
    number_as_millis_err (.obj kvs) "permit_wait_ms" hp, error_bind]

theorem parse_query_err_entity (name : String) (kvs : List (String × JValue))
    (cs : List (String × Trace)) (e cw pw : Nat)
    (hch : Trace.parse_children kvs = Except.ok cs)
    (he : (JValue.index (.obj kvs) "elapsed_ms").as_u64 = some e)
    (hc : (JValue.index (.obj kvs) "conn_wait_ms").as_u64 = some cw)
    (hp : (JValue.index (.obj kvs) "permit_wait_ms").as_u64 = some pw)
    (hec : (JValue.index (.obj kvs) "entity_count").as_u64 = none) :
    Trace.parse_query name (.obj kvs) = Except.error TraceError.entityCountNotANumber := by
  rw [parse_query_obj_eq, hch, ok_bind,
    number_as_millis_ok (.obj kvs) "elapsed_ms" e he, ok_bind,
    number_as_millis_ok (.obj kvs) "conn_wait_ms" cw hc, ok_bind,
    number_as_millis_ok (.obj kvs) "permit_wait_ms" pw hp, ok_bind,
    u64_field_err (.obj kvs) "entity_count" TraceError.entityCountNotANumber hec, error_bind]

/-- C1: `query_time` of a `Query` node is its own `elapsed` plus the sum
of `query_time` over its children, and of a `Root` node the sum of
`query_time` over its children with the root's own `elapsed` excluded;
on a root with elapsed 200ms and exactly two childless `Query` children
of 50ms and 70ms it yields 120ms, and the derived other time
`root.elapsed - queryTime(root)` is 80ms. -/
theorem c1_query_time_recurrence :
    (∀ (q v qid : String) (b e cw pw : Nat) (cs : List (String × Trace)),
        query_time (Trace.root q v qid b e cw pw cs) =
          (cs.map (fun p => query_time p.2)).sum)
    ∧ (∀ (q : String) (e cw pw ec : Nat) (cs : List (String × Trace)),
        query_time (Trace.query q e cw pw ec cs) =
          e + (cs.map (fun p => query_time p.2)).sum)
    ∧ query_time c1_example_root = 120
    ∧ checked_sub 200 (query_time c1_example_root) = some 80 := by
  refine ⟨?_, ?_, rfl, rfl⟩
  · intro q v qid b e cw pw cs
    rw [query_time_root, query_time_sum_eq_map_sum]
  · intro q e cw pw ec cs
    rw [query_time_query, query_time_sum_eq_map_sum]

/-- C2 (code bug): on a root whose children's aggregate `query_time`
(here 120ms) exceeds the root's own `elapsed` (100ms), the renderer
neither clamps "other" to zero nor reports an `InconsistentTrace` error:
`*elapsed - qt` is Rust's panicking `Duration` subtraction, so the
program faults on exactly the unsigned-duration underflow the claim says
it must not fault on. -/
theorem c2_underflow_crashes :
    query_time c2_failing_root = 120 ∧
    print_brief_trace "root" c2_failing_root 0 =
      Except.error RustPanic.durationSubOverflow := ⟨rfl, rfl⟩

/-- C3 counterexample: the claim lists `query` among the required keys of
the root, yet a root object without it (and without `variables` and
`query_id`) parses successfully — parsing produces no `MissingField`
error, nor any error at all.  Moreover a node actually missing
`elapsed_ms` fails with the same "elapsed_ms is not a duration"
(wrong-type-style) error that a type mismatch produces, not a dedicated
missing-field error kind. -/
theorem c3_counterexample :
    JValue.jlookup c3_missing_query_kvs "query" = none ∧
    Trace.parse c3_missing_query_obj =
      Except.ok (Trace.root "null" "null" "null" 1 2 3 4 []) ∧
    Trace.parse (.obj [("block", .num (.posInt 1))]) =
      Except.error (TraceError.notADuration "elapsed_ms") :=
  ⟨rfl, rfl, rfl⟩

/-- C3 amended: the required keys are `block`, `elapsed_ms`,
`conn_wait_ms`, `permit_wait_ms` for the root and `elapsed_ms`,
`conn_wait_ms`, `permit_wait_ms`, `entity_count` for non-root nodes;
when such a key is absent (so indexing yields `Null`), parsing fails
with the error that names that key — the same error a wrong-typed value
produces, there being no separate `MissingField` kind.  `query`,
`variables` and `query_id` are never required: parsing succeeds without
them whenever the children and numeric fields are good. -/
theorem c3_amended_required_fields :
    (∀ (kvs : List (String × JValue)) (cs : List (String × Trace)),
        Trace.parse_children kvs = Except.ok cs →
        JValue.jlookup kvs "block" = none →
        Trace.parse (.obj kvs) = Except.error TraceError.blockNotANumber)
  ∧ (∀ (kvs : List (String × JValue)) (cs : List (String × Trace)) (b : Nat),
        Trace.parse_children kvs = Except.ok cs →
        (JValue.index (.obj kvs) "block").as_u64 = some b →
        JValue.jlookup kvs "elapsed_ms" = none →
        Trace.parse (.obj kvs) = Except.error (TraceError.notADuration "elapsed_ms"))
  ∧ (∀ (kvs : List (String × JValue)) (cs : List (String × Trace)) (b e : Nat),
        Trace.parse_children kvs = Except.ok cs →
        (JValue.index (.obj kvs) "block").as_u64 = some b →
        (JValue.index (.obj kvs) "elapsed_ms").as_u64 = some e →
        JValue.jlookup kvs "conn_wait_ms" = none →
        Trace.parse (.obj kvs) = Except.error (TraceError.notADuration "conn_wait_ms"))
  ∧ (∀ (kvs : List (String × JValue)) (cs : List (String × Trace)) (b e cw : Nat),
        Trace.parse_children kvs = Except.ok cs →
        (JValue.index (.obj kvs) "block").as_u64 = some b →
        (JValue.index (.obj kvs) "elapsed_ms").as_u64 = some e →
        (JValue.index (.obj kvs) "conn_wait_ms").as_u64 = some cw →
        JValue.jlookup kvs "permit_wait_ms" = none →
        Trace.parse (.obj kvs) = Except.error (TraceError.notADuration "permit_wait_ms"))
  ∧ (∀ (name : String) (kvs : List (String × JValue)) (cs : List (String × Trace)),
        Trace.parse_children kvs = Except.ok cs →
        JValue.jlookup kvs "elapsed_ms" = none →
        Trace.parse_query name (.obj kvs) =
          Except.error (TraceError.notADuration "elapsed_ms"))
  ∧ (∀ (name : String) (kvs : List (String × JValue)) (cs : List (String × Trace)) (e : Nat),
        Trace.parse_children kvs = Except.ok cs →
        (JValue.index (.obj kvs) "elapsed_ms").as_u64 = some e →
        JValue.jlookup kvs "conn_wait_ms" = none →
        Trace.parse_query name (.obj kvs) =
          Except.error (TraceError.notADuration "conn_wait_ms"))
  ∧ (∀ (name : String) (kvs : List (String × JValue)) (cs : List (String × Trace)) (e cw : Nat),
        Trace.parse_children kvs = Except.ok cs →
        (JValue.index (.obj kvs) "elapsed_ms").as_u64 = some e →
        (JValue.index (.obj kvs) "conn_wait_ms").as_u64 = some cw →
        JValue.jlookup kvs "permit_wait_ms" = none →
        Trace.parse_query name (.obj kvs) =
          Except.error (TraceError.notADuration "permit_wait_ms"))
  ∧ (∀ (name : String) (kvs : List (String × JValue)) (cs : List (String × Trace))
        (e cw pw : Nat),
        Trace.parse_children kvs = Except.ok cs →
        (JValue.index (.obj kvs) "elapsed_ms").as_u64 = some e →
        (JValue.index (.obj kvs) "conn_wait_ms").as_u64 = some cw →
        (JValue.index (.obj kvs) "permit_wait_ms").as_u64 = some pw →
        JValue.jlookup kvs "entity_count" = none →
        Trace.parse_query name (.obj kvs) = Except.error TraceError.entityCountNotANumber)
  ∧ (∀ (kvs : List (String × JValue)) (cs : List (String × Trace)) (b e cw pw : Nat),
        Trace.parse_children kvs = Except.ok cs →
        (JValue.index (.obj kvs) "block").as_u64 = some b →
        (JValue.index (.obj kvs) "elapsed_ms").as_u64 = some e →
        (JValue.index (.obj kvs) "conn_wait_ms").as_u64 = some cw →
        (JValue.index (.obj kvs) "permit_wait_ms").as_u64 = some pw →
        Trace.parse (.obj kvs) =
          Except.ok (Trace.root
            (jvToString (JValue.index (.obj kvs) "query"))
            (jvToString (JValue.index (.obj kvs) "variables"))
            (jvToString (JValue.index (.obj kvs) "query_id"))
            b e cw pw cs)) := by
  refine ⟨?_, ?_, ?_, ?_, ?_, ?_, ?_, ?_, ?_⟩
  · intro kvs cs h1 h2
    exact parse_err_block kvs cs h1 (as_u64_absent kvs "block" h2)
  · intro kvs cs b h1 h2 h3
    exact parse_err_elapsed kvs cs b h1 h2 (as_u64_absent kvs "elapsed_ms" h3)
  · intro kvs cs b e h1 h2 h3 h4
    exact parse_err_conn kvs cs b e h1 h2 h3 (as_u64_absent kvs "conn_wait_ms" h4)
  · intro kvs cs b e cw h1 h2 h3 h4 h5
    exact parse_err_permit kvs cs b e cw h1 h2 h3 h4
      (as_u64_absent kvs "permit_wait_ms" h5)
  · intro name kvs cs h1 h2
    exact parse_query_err_elapsed name kvs cs h1 (as_u64_absent kvs "elapsed_ms" h2)
  · intro name kvs cs e h1 h2 h3
    exact parse_query_err_conn name kvs cs e h1 h2 (as_u64_absent kvs "conn_wait_ms" h3)
  · intro name kvs cs e cw h1 h2 h3 h4
    exact parse_query_err_permit name kvs cs e cw h1 h2 h3
      (as_u64_absent kvs "permit_wait_ms" h4)
  · intro name kvs cs e cw pw h1 h2 h3 h4 h5
    exact parse_query_err_entity name kvs cs e cw pw h1 h2 h3 h4
      (as_u64_absent kvs "entity_count" h5)
  · intro kvs cs b e cw pw h1 h2 h3 h4 h5
    exact parse_obj_ok kvs cs b e cw pw h1 h2 h3 h4 h5

/-- Witness: `c3_amended_required_fields` applied at concrete nodes, one
per missing required key. -/
theorem c3_amended_required_fields_witness :
    Trace.parse_children c3_missing_query_kvs = Except.ok []
  ∧ Trace.parse (.obj []) = Except.error TraceError.blockNotANumber
  ∧ Trace.parse (.obj [("block", .num (.posInt 1))]) =
      Except.error (TraceError.notADuration "elapsed_ms")
  ∧ Trace.parse (.obj [("block", .num (.posInt 1)), ("elapsed_ms", .num (.posInt 2))]) =
      Except.error (TraceError.notADuration "conn_wait_ms")
  ∧ Trace.parse (.obj [("block", .num (.posInt 1)), ("conn_wait_ms", .num (.posInt 3)),
      ("elapsed_ms", .num (.posInt 2))]) =
      Except.error (TraceError.notADuration "permit_wait_ms")
  ∧ Trace.parse_query "foo" (.obj []) = Except.error (TraceError.notADuration "elapsed_ms")
  ∧ Trace.parse_query "foo" (.obj [("elapsed_ms", .num (.posInt 2))]) =
      Except.error (TraceError.notADuration "conn_wait_ms")
  ∧ Trace.parse_query "foo" (.obj [("conn_wait_ms", .num (.posInt 3)),
      ("elapsed_ms", .num (.posInt 2))]) =
      Except.error (TraceError.notADuration "permit_wait_ms")
  ∧ Trace.parse_query "foo" (.obj [("conn_wait_ms", .num (.posInt 3)),
      ("elapsed_ms", .num (.posInt 2)), ("permit_wait_ms", .num (.posInt 4))]) =
      Except.error TraceError.entityCountNotANumber
  ∧ Trace.parse c3_missing_query_obj =
      Except.ok (Trace.root "null" "null" "null" 1 2 3 4 []) := by
  obtain ⟨h1, h2, h3, h4, h5, h6, h7, h8, h9⟩ := c3_amended_required_fields
  exact ⟨rfl,
    h1 [] [] rfl rfl,
    h2 [("block", .num (.posInt 1))] [] 1 rfl rfl rfl,
    h3 [("block", .num (.posInt 1)), ("elapsed_ms", .num (.posInt 2))] [] 1 2
      rfl rfl rfl rfl,
    h4 [("block", .num (.posInt 1)), ("conn_wait_ms", .num (.posInt 3)),
      ("elapsed_ms", .num (.posInt 2))] [] 1 2 3 rfl rfl rfl rfl rfl,
    h5 "foo" [] [] rfl rfl,
    h6 "foo" [("elapsed_ms", .num (.posInt 2))] [] 2 rfl rfl rfl,
    h7 "foo" [("conn_wait_ms", .num (.posInt 3)), ("elapsed_ms", .num (.posInt 2))] [] 2 3
      rfl rfl rfl rfl,
    h8 "foo" [("conn_wait_ms", .num (.posInt 3)), ("elapsed_ms", .num (.posInt 2)),
      ("permit_wait_ms", .num (.posInt 4))] [] 2 3 4 rfl rfl rfl rfl rfl,
    h9 c3_missing_query_kvs [] 1 2 3 4 rfl rfl rfl rfl rfl⟩

/-- C4: while parsing a trace node's entry list, the children are exactly
the object-valued entries: the child names, in order, are the keys of
the object-valued entries regardless of key name, and each such entry is
recursively parsed by `parse_query`; an entry whose value is a plain
string or number is not an object and so never contributes a child —
there is no explicit "children" field. -/
theorem c4_children_are_object_entries :
    (∀ (kvs : List (String × JValue)) (cs : List (String × Trace)),
        Trace.parse_children kvs = Except.ok cs →
        cs.map Prod.fst = (kvs.filter (fun p => p.2.is_object)).map Prod.fst)
  ∧ (∀ (kvs : List (String × JValue)) (cs : List (String × Trace)),
        Trace.parse_children kvs = Except.ok cs →
        ∀ (k : String) (v : JValue), (k, v) ∈ kvs → v.is_object = true →
          ∃ t, (k, t) ∈ cs ∧ Trace.parse_query k v = Except.ok (k, t))
  ∧ (∀ (s : String), (JValue.str s).is_object = false)
  ∧ (∀ (n : JNum), (JValue.num n).is_object = false) :=
  ⟨parse_children_ok_keys, parse_children_ok_mem, fun _ => rfl, fun _ => rfl⟩

/-- Witness: `c4_children_are_object_entries` applied to `c4_kvs`, whose
only object-valued entry is keyed "foo". -/
theorem c4_children_are_object_entries_witness :
    Trace.parse_children c4_kvs = Except.ok [("foo", c4_child_trace)]
  ∧ [("foo", c4_child_trace)].map Prod.fst =
      (c4_kvs.filter (fun p => p.2.is_object)).map Prod.fst
  ∧ (∃ t, ("foo", t) ∈ [("foo", c4_child_trace)] ∧
      Trace.parse_query "foo" c4_foo_obj = Except.ok ("foo", t)) :=
  ⟨rfl,
   c4_children_are_object_entries.1 c4_kvs [("foo", c4_child_trace)] rfl,
   c4_children_are_object_entries.2.1 c4_kvs [("foo", c4_child_trace)] rfl "foo" c4_foo_obj
     (List.mem_cons_of_mem _ (List.mem_cons_of_mem _ (List.mem_cons_self _ _))) rfl⟩

/-- C5 counterexample: for a root whose `variables` entry is the JSON
string "7", the parsed trace stores the quoted raw serialization `"7"`
(a 3-character string including the quote marks), not data parsed from
that string's content (which would be the number 7, serialized as the
bare text `7`): the stored field is raw text. -/
theorem c5_counterexample :
    Trace.parse (.obj c5_kvs) =
      Except.ok (Trace.root "null" "\"7\"" "null" 1 2 3 4 []) ∧
    ("\"7\"" : String) ≠ "7" :=
  ⟨rfl, by decide⟩

/-- C5 amended: the root's `variables` field is stored as raw text — the
compact JSON serialization of whatever value sits at the "variables" key
(the text "null" when the key is absent); `Trace::parse` never re-parses
it into structured data (the parse-from-string step the spec describes
belongs to the log-entry client, not to the trace parser). -/
theorem c5_amended_variables_raw :
    ∀ (kvs : List (String × JValue)) (q v qid : String) (b e cw pw : Nat)
      (cs : List (String × Trace)),
      Trace.parse (.obj kvs) = Except.ok (Trace.root q v qid b e cw pw cs) →
      v = jvToString (JValue.index (.obj kvs) "variables") ∧
        (JValue.jlookup kvs "variables" = none → v = "null") := by
  intro kvs q v qid b e cw pw cs h
  rw [parse_obj_eq] at h
  simp only [except_bind_ok] at h
  obtain ⟨ch, hch, b2, hb2, e2, he2, cw2, hcw2, pw2, hpw2, hok⟩ := h
  simp only [Except.ok.injEq, Trace.root.injEq] at hok
  obtain ⟨hq, hv, hqid, hb, he, hcw, hpw, hcs⟩ := hok
  refine ⟨hv.symm, fun habs => ?_⟩
  rw [← hv, index_absent kvs "variables" habs]
  rfl

/-- Witness: `c5_amended_variables_raw` applied to `c5_kvs`. -/
theorem c5_amended_variables_raw_witness :
    Trace.parse (.obj c5_kvs) = Except.ok (Trace.root "null" "\"7\"" "null" 1 2 3 4 []) ∧
    ("\"7\"" = jvToString (JValue.index (.obj c5_kvs) "variables") ∧
      (JValue.jlookup c5_kvs "variables" = none → ("\"7\"" : String) = "null")) :=
  ⟨rfl, c5_amended_variables_raw c5_kvs "null" "\"7\"" "null" 1 2 3 4 [] rfl⟩

/-- C6: a `Root` line is the indent run, the name left-justified in a
field of width `48 - indent`, a space, the elapsed milliseconds
right-justified in a 7-character field, and a trailing "ms"; children
are rendered at `indent + 2` and are followed by a blank line and the
three identically labeled and aligned summary lines, whose "total" value
is exactly the root's elapsed milliseconds.  A `Query` line is the same
with field width `50 - indent` plus the entity count right-justified in
a 7-character field labeled "entities".  The third conjunct pins the
full rendering of a concrete tree. -/
theorem c6_layout :
    (∀ (name q v qid : String) (b e cw pw : Nat) (cs : List (String × Trace))
        (indent : Nat) (cl : List String),
        query_time_sum cs ≤ e → indent ≤ 48 →
        print_brief_children cs (indent + 2) = Except.ok cl →
        print_brief_trace name (Trace.root q v qid b e cw pw cs) indent =
          Except.ok ([fmtPadRight " " indent ++ fmtPadRight name (48 - indent) ++ " " ++
              fmtPadLeft (toString e) 7 ++ "ms"] ++ cl ++
            ["",
             "query:      " ++ fmtPadLeft (toString (query_time_sum cs)) 7 ++ "ms",
             "other:      " ++ fmtPadLeft (toString (e - query_time_sum cs)) 7 ++ "ms",
             "total:      " ++ fmtPadLeft (toString e) 7 ++ "ms"]))
  ∧ (∀ (name q : String) (e cw pw ec : Nat) (cs : List (String × Trace))
        (indent : Nat) (cl : List String),
        indent ≤ 50 →
        print_brief_children cs (indent + 2) = Except.ok cl →
        print_brief_trace name (Trace.query q e cw pw ec cs) indent =
          Except.ok ([fmtPadRight " " indent ++ fmtPadRight name (50 - indent) ++ " " ++
              fmtPadLeft (toString e) 7 ++ "ms [" ++
              fmtPadLeft (toString ec) 7 ++ " entities]"] ++ cl))
  ∧ print_brief_trace "root" c6_example_root 0 =
      Except.ok
        [" root                                                 200ms",
         "  child_a                                               50ms [      7 entities]",
         "  child_b                                               70ms [      9 entities]",
         "    gc                                                  30ms [      2 entities]",
         "",
         "query:          150ms",
         "other:           50ms",
         "total:          200ms"] := by
  refine ⟨?_, ?_, rfl⟩
  · intro name q v qid b e cw pw cs indent cl h1 h2 h3
    exact pbt_root_eq name q v qid b e cw pw cs indent cl h1 h2 h3
  · intro name q e cw pw ec cs indent cl h1 h2
    exact pbt_query_eq name q e cw pw ec cs indent cl h1 h2

/-- Witness: `c6_layout` applied to the concrete example tree at
indent 0. -/
theorem c6_layout_witness :
    query_time_sum c6_children ≤ 200 ∧ (0 : Nat) ≤ 48 ∧
    print_brief_children c6_children (0 + 2) = Except.ok c6_child_lines ∧
    print_brief_trace "root" (Trace.root "q" "v" "i" 1 200 0 0 c6_children) 0 =
      Except.ok ([fmtPadRight " " 0 ++ fmtPadRight "root" (48 - 0) ++ " " ++
          fmtPadLeft (toString (200 : Nat)) 7 ++ "ms"] ++ c6_child_lines ++
        ["",
         "query:      " ++ fmtPadLeft (toString (query_time_sum c6_children)) 7 ++ "ms",
         "other:      " ++ fmtPadLeft (toString (200 - query_time_sum c6_children)) 7 ++ "ms",
         "total:      " ++ fmtPadLeft (toString (200 : Nat)) 7 ++ "ms"]) := by
  refine ⟨by decide, by decide, rfl, ?_⟩
  exact c6_layout.1 "root" "q" "v" "i" 1 200 0 0 c6_children 0 c6_child_lines
    (by decide) (by decide) rfl

/-- C7 counterexample: rendered at indent 0, the root line's name is
preceded by one space, not zero — `\x7bspace:indent$\x7d` pads the
one-space string to a minimum width, which cannot shrink it — and the
second-level lines (indent 2) are therefore indented exactly 1 more
character than the root line, not 2. -/
theorem c7_counterexample :
    ((print_brief_trace "root" c6_example_root 0).toOption.getD []).head? =
      some c7_root_line
  ∧ ((print_brief_trace "root" c6_example_root 0).toOption.getD []).tail.head? =
      some c7_child_line
  ∧ (c7_root_line.data.takeWhile (fun c => c = ' ')).length = 1
  ∧ (c7_child_line.data.takeWhile (fun c => c = ' ')).length = 2 := by
  refine ⟨rfl, rfl, by decide, by decide⟩

/-- C7 amended: every rendered node line begins with `fmtPadRight " "
indent`, a run of exactly `indent` spaces when `indent ≥ 1` but a single
space at indent 0 (Rust's minimum-width padding of the one-space string
never shrinks it); children are rendered at `indent + 2`, so levels at
indent ≥ 1 differ by exactly 2 spaces while the root line at indent 0
carries one space, exactly 1 less than its children's lines. -/
theorem c7_amended_indent_run :
    (∀ (indent : Nat), 1 ≤ indent →
        fmtPadRight " " indent = String.mk (List.replicate indent ' '))
  ∧ fmtPadRight " " 0 = " "
  ∧ (∀ (name : String) (t : Trace) (indent : Nat) (out : List String),
        print_brief_trace name t indent = Except.ok out →
        ∃ restLine, out.head? = some (fmtPadRight " " indent ++ restLine)) :=
  ⟨fmtPadRight_space_pos, rfl, pbt_head_indent_run⟩

/-- Witness: `c7_amended_indent_run` applied at indent 2 and at a
concrete childless `Query` node. -/
theorem c7_amended_indent_run_witness :
    ((1 : Nat) ≤ 2 ∧ fmtPadRight " " 2 = String.mk (List.replicate 2 ' '))
  ∧ (print_brief_trace "child" (Trace.query "q" 5 0 0 1 []) 2 = Except.ok c7_witness_lines
  ∧ ∃ restLine, c7_witness_lines.head? = some (fmtPadRight " " 2 ++ restLine)) := by
  refine ⟨⟨by decide, c7_amended_indent_run.1 2 (by decide)⟩, rfl, ?_⟩
  exact c7_amended_indent_run.2.2 "child" (Trace.query "q" 5 0 0 1 []) 2 c7_witness_lines rfl

theorem as_u64_present_none (kvs : List (String × JValue)) (key : String) (w : JValue)
    (h1 : JValue.jlookup kvs key = some w) (h2 : w.as_u64 = none) :
    (JValue.index (.obj kvs) key).as_u64 = none := by
  rw [index_present kvs key w h1]
  exact h2

/-- C8: every required duration or count key — `block`, `elapsed_ms`,
`conn_wait_ms`, `permit_wait_ms` on the root; `elapsed_ms`,
`conn_wait_ms`, `permit_wait_ms`, `entity_count` on a child — that is
present but whose value is not a non-negative integer (a JSON string, a
negative integer, or a non-integral number, all of which fail `as_u64`)
makes parsing fail with the error naming that field; and parsing is
fail-fast with no partial result: the first error in the children loop
aborts the whole list regardless of later entries, and a failing
children loop aborts the enclosing node's parse with the same error. -/
theorem c8_wrong_type_fail_fast :
    (∀ (s : String), (JValue.str s).as_u64 = none)
  ∧ (∀ (m : Nat), (JValue.num (.negInt m)).as_u64 = none)
  ∧ (∀ (s : String), (JValue.num (.float s)).as_u64 = none)
  ∧ (∀ (kvs : List (String × JValue)) (cs : List (String × Trace)) (w : JValue),
        Trace.parse_children kvs = Except.ok cs →
        JValue.jlookup kvs "block" = some w → w.as_u64 = none →
        Trace.parse (.obj kvs) = Except.error TraceError.blockNotANumber)
  ∧ (∀ (kvs : List (String × JValue)) (cs : List (String × Trace)) (b : Nat) (w : JValue),
        Trace.parse_children kvs = Except.ok cs →
        (JValue.index (.obj kvs) "block").as_u64 = some b →
        JValue.jlookup kvs "elapsed_ms" = some w → w.as_u64 = none →
        Trace.parse (.obj kvs) = Except.error (TraceError.notADuration "elapsed_ms"))
  ∧ (∀ (kvs : List (String × JValue)) (cs : List (String × Trace)) (b e : Nat)
        (w : JValue),
        Trace.parse_children kvs = Except.ok cs →
        (JValue.index (.obj kvs) "block").as_u64 = some b →
        (JValue.index (.obj kvs) "elapsed_ms").as_u64 = some e →
        JValue.jlookup kvs "conn_wait_ms" = some w → w.as_u64 = none →
        Trace.parse (.obj kvs) = Except.error (TraceError.notADuration "conn_wait_ms"))
  ∧ (∀ (kvs : List (String × JValue)) (cs : List (String × Trace)) (b e cw : Nat)
        (w : JValue),
        Trace.parse_children kvs = Except.ok cs →
        (JValue.index (.obj kvs) "block").as_u64 = some b →
        (JValue.index (.obj kvs) "elapsed_ms").as_u64 = some e →
        (JValue.index (.obj kvs) "conn_wait_ms").as_u64 = some cw →
        JValue.jlookup kvs "permit_wait_ms" = some w → w.as_u64 = none →
        Trace.parse (.obj kvs) = Except.error (TraceError.notADuration "permit_wait_ms"))
  ∧ (∀ (name : String) (kvs : List (String × JValue)) (cs : List (String × Trace))
        (w : JValue),
        Trace.parse_children kvs = Except.ok cs →
        JValue.jlookup kvs "elapsed_ms" = some w → w.as_u64 = none →
        Trace.parse_query name (.obj kvs) =
          Except.error (TraceError.notADuration "elapsed_ms"))
  ∧ (∀ (name : String) (kvs : List (String × JValue)) (cs : List (String × Trace))
        (e : Nat) (w : JValue),
        Trace.parse_children kvs = Except.ok cs →
        (JValue.index (.obj kvs) "elapsed_ms").as_u64 = some e →
        JValue.jlookup kvs "conn_wait_ms" = some w → w.as_u64 = none →
        Trace.parse_query name (.obj kvs) =
          Except.error (TraceError.notADuration "conn_wait_ms"))
  ∧ (∀ (name : String) (kvs : List (String × JValue)) (cs : List (String × Trace))
        (e cw : Nat) (w : JValue),
        Trace.parse_children kvs = Except.ok cs →
        (JValue.index (.obj kvs) "elapsed_ms").as_u64 = some e →
        (JValue.index (.obj kvs) "conn_wait_ms").as_u64 = some cw →
        JValue.jlookup kvs "permit_wait_ms" = some w → w.as_u64 = none →
        Trace.parse_query name (.obj kvs) =
          Except.error (TraceError.notADuration "permit_wait_ms"))
  ∧ (∀ (name : String) (kvs : List (String × JValue)) (cs : List (String × Trace))
        (e cw pw : Nat) (w : JValue),
        Trace.parse_children kvs = Except.ok cs →
        (JValue.index (.obj kvs) "elapsed_ms").as_u64 = some e →
        (JValue.index (.obj kvs) "conn_wait_ms").as_u64 = some cw →
        (JValue.index (.obj kvs) "permit_wait_ms").as_u64 = some pw →
        JValue.jlookup kvs "entity_count" = some w → w.as_u64 = none →
        Trace.parse_query name (.obj kvs) = Except.error TraceError.entityCountNotANumber)
  ∧ (∀ (l1 l2 : List (String × JValue)) (err : TraceError),
        Trace.parse_children l1 = Except.error err →
        Trace.parse_children (l1 ++ l2) = Except.error err)
  ∧ (∀ (kvs : List (String × JValue)) (err : TraceError),
        Trace.parse_children kvs = Except.error err →
        Trace.parse (.obj kvs) = Except.error err)
  ∧ (∀ (name : String) (kvs : List (String × JValue)) (err : TraceError),
        Trace.parse_children kvs = Except.error err →
        Trace.parse_query name (.obj kvs) = Except.error err) := by
  refine ⟨fun _ => rfl, fun _ => rfl, fun _ => rfl, ?_, ?_, ?_, ?_, ?_, ?_, ?_, ?_,
    parse_children_error_append, parse_children_error_root, parse_children_error_query⟩
  · intro kvs cs w h1 h2 h3
    exact parse_err_block kvs cs h1 (as_u64_present_none kvs "block" w h2 h3)
  · intro kvs cs b w h1 h2 h3 h4
    exact parse_err_elapsed kvs cs b h1 h2 (as_u64_present_none kvs "elapsed_ms" w h3 h4)
  · intro kvs cs b e w h1 h2 h3 h4 h5
    exact parse_err_conn kvs cs b e h1 h2 h3 (as_u64_present_none kvs "conn_wait_ms" w h4 h5)
  · intro kvs cs b e cw w h1 h2 h3 h4 h5 h6
    exact parse_err_permit kvs cs b e cw h1 h2 h3 h4
      (as_u64_present_none kvs "permit_wait_ms" w h5 h6)
  · intro name kvs cs w h1 h2 h3
    exact parse_query_err_elapsed name kvs cs h1
      (as_u64_present_none kvs "elapsed_ms" w h2 h3)
  · intro name kvs cs e w h1 h2 h3 h4
    exact parse_query_err_conn name kvs cs e h1 h2
      (as_u64_present_none kvs "conn_wait_ms" w h3 h4)
  · intro name kvs cs e cw w h1 h2 h3 h4 h5
    exact parse_query_err_permit name kvs cs e cw h1 h2 h3
      (as_u64_present_none kvs "permit_wait_ms" w h4 h5)
  · intro name kvs cs e cw pw w h1 h2 h3 h4 h5 h6
    exact parse_query_err_entity name kvs cs e cw pw h1 h2 h3 h4
      (as_u64_present_none kvs "entity_count" w h5 h6)

/-- Witness: `c8_wrong_type_fail_fast` applied at nodes where each
required key in turn is present with a non-integer value (string,
negative integer, or float), and at a children list whose first entry
fails. -/
theorem c8_wrong_type_fail_fast_witness :
    JValue.jlookup c8_kvs "elapsed_ms" = some (.str "20")
  ∧ Trace.parse (.obj [("block", .str "x")]) = Except.error TraceError.blockNotANumber
  ∧ Trace.parse (.obj c8_kvs) = Except.error (TraceError.notADuration "elapsed_ms")
  ∧ Trace.parse (.obj [("block", .num (.posInt 1)), ("conn_wait_ms", .str "x"),
      ("elapsed_ms", .num (.posInt 2))]) =
      Except.error (TraceError.notADuration "conn_wait_ms")
  ∧ Trace.parse (.obj [("block", .num (.posInt 1)), ("conn_wait_ms", .num (.posInt 3)),
      ("elapsed_ms", .num (.posInt 2)), ("permit_wait_ms", .num (.float "4.5"))]) =
      Except.error (TraceError.notADuration "permit_wait_ms")
  ∧ Trace.parse_query "foo" (.obj c8_kvs) =
      Except.error (TraceError.notADuration "elapsed_ms")
  ∧ Trace.parse_query "foo" (.obj [("conn_wait_ms", .num (.negInt 0)),
      ("elapsed_ms", .num (.posInt 2))]) =
      Except.error (TraceError.notADuration "conn_wait_ms")
  ∧ Trace.parse_query "foo" (.obj [("conn_wait_ms", .num (.posInt 3)),
      ("elapsed_ms", .num (.posInt 2)), ("permit_wait_ms", .str "x")]) =
      Except.error (TraceError.notADuration "permit_wait_ms")
  ∧ Trace.parse_query "foo" (.obj [("conn_wait_ms", .num (.posInt 3)),
      ("elapsed_ms", .num (.posInt 2)), ("entity_count", .str "many"),
      ("permit_wait_ms", .num (.posInt 4))]) =
      Except.error TraceError.entityCountNotANumber
  ∧ Trace.parse_children c8_bad_children =
      Except.error (TraceError.notADuration "elapsed_ms")
  ∧ Trace.parse_children (c8_bad_children ++ [("b", .num (.posInt 1))]) =
      Except.error (TraceError.notADuration "elapsed_ms")
  ∧ Trace.parse (.obj c8_bad_children) = Except.error (TraceError.notADuration "elapsed_ms")
  ∧ Trace.parse_query "bar" (.obj c8_bad_children) =
      Except.error (TraceError.notADuration "elapsed_ms") := by
  obtain ⟨_, _, _, hb, he, hc, hp, hqe, hqc, hqp, hqec, happ, habort, hqabort⟩ :=
    c8_wrong_type_fail_fast
  exact ⟨rfl,
    hb [("block", .str "x")] [] (.str "x") rfl rfl rfl,
    he c8_kvs [] 1 (.str "20") rfl rfl rfl rfl,
    hc [("block", .num (.posInt 1)), ("conn_wait_ms", .str "x"),
      ("elapsed_ms", .num (.posInt 2))] [] 1 2 (.str "x") rfl rfl rfl rfl rfl,
    hp [("block", .num (.posInt 1)), ("conn_wait_ms", .num (.posInt 3)),
      ("elapsed_ms", .num (.posInt 2)), ("permit_wait_ms", .num (.float "4.5"))] [] 1 2 3
      (.num (.float "4.5")) rfl rfl rfl rfl rfl rfl,
    hqe "foo" c8_kvs [] (.str "20") rfl rfl rfl,
    hqc "foo" [("conn_wait_ms", .num (.negInt 0)), ("elapsed_ms", .num (.posInt 2))] [] 2
      (.num (.negInt 0)) rfl rfl rfl rfl,
    hqp "foo" [("conn_wait_ms", .num (.posInt 3)), ("elapsed_ms", .num (.posInt 2)),
      ("permit_wait_ms", .str "x")] [] 2 3 (.str "x") rfl rfl rfl rfl rfl,
    hqec "foo" [("conn_wait_ms", .num (.posInt 3)), ("elapsed_ms", .num (.posInt 2)),
      ("entity_count", .str "many"), ("permit_wait_ms", .num (.posInt 4))] [] 2 3 4
      (.str "many") rfl rfl rfl rfl rfl rfl,
    rfl,
    happ c8_bad_children [("b", .num (.posInt 1))] (TraceError.notADuration "elapsed_ms") rfl,
    habort c8_bad_children (TraceError.notADuration "elapsed_ms") rfl,
    hqabort "bar" c8_bad_children (TraceError.notADuration "elapsed_ms") rfl⟩

/-- C9: parsing a root object never fails on account of the `query`,
`variables` or `query_id` entries: whenever the children and the four
numeric fields are good, the parse succeeds — whatever those three keys
hold, or even if they are absent — and each field is stored as the
compact JSON serialization of the value at its key; an absent key
indexes to `Null`, which serializes to the four-character string
"null". -/
theorem c9_root_string_fields_infallible :
    (∀ (kvs : List (String × JValue)) (cs : List (String × Trace)) (b e cw pw : Nat),
        Trace.parse_children kvs = Except.ok cs →
        (JValue.index (.obj kvs) "block").as_u64 = some b →
        (JValue.index (.obj kvs) "elapsed_ms").as_u64 = some e →
        (JValue.index (.obj kvs) "conn_wait_ms").as_u64 = some cw →
        (JValue.index (.obj kvs) "permit_wait_ms").as_u64 = some pw →
        Trace.parse (.obj kvs) =
          Except.ok (Trace.root
            (jvToString (JValue.index (.obj kvs) "query"))
            (jvToString (JValue.index (.obj kvs) "variables"))
            (jvToString (JValue.index (.obj kvs) "query_id"))
            b e cw pw cs))
  ∧ jvToString JValue.null = "null"
  ∧ String.length "null" = 4
  ∧ (∀ (kvs : List (String × JValue)) (key : String),
        JValue.jlookup kvs key = none → JValue.index (.obj kvs) key = JValue.null) :=
  ⟨parse_obj_ok, rfl, rfl, index_absent⟩

/-- Witness: `c9_root_string_fields_infallible` applied to `c9_kvs` —
absent `query` is stored as "null", the number 5 at `variables` as "5",
the boolean at `query_id` as "true". -/
theorem c9_root_string_fields_infallible_witness :
    Trace.parse_children c9_kvs = Except.ok []
  ∧ Trace.parse (.obj c9_kvs) =
      Except.ok (Trace.root
        (jvToString (JValue.index (.obj c9_kvs) "query"))
        (jvToString (JValue.index (.obj c9_kvs) "variables"))
        (jvToString (JValue.index (.obj c9_kvs) "query_id"))
        1 2 3 4 [])
  ∧ jvToString (JValue.index (.obj c9_kvs) "query") = "null"
  ∧ jvToString (JValue.index (.obj c9_kvs) "variables") = "5"
  ∧ jvToString (JValue.index (.obj c9_kvs) "query_id") = "true" :=
  ⟨rfl,
   c9_root_string_fields_infallible.1 c9_kvs [] 1 2 3 4 rfl rfl rfl rfl rfl,
   rfl, rfl, rfl⟩

/-- C10: rendering is not total in nesting depth.  A `Query` node
rendered at indent greater than 50 hits the underflowing `50 - indent`
usize field-width computation and panics; a `Root` node at indent
greater than 48 hits the underflowing `48 - indent` (when the preceding
duration subtraction passes) and in any case never renders successfully.
Conversely a root whose `Query`-only children nest at most 25 levels
deep — every `Query` line then sits at indent at most `2 + 2·24 = 50` —
and whose aggregate child time does not exceed its elapsed renders from
indent 0 without panic. -/
theorem c10_width_underflow_depth_bound :
    (∀ (name q : String) (e cw pw ec : Nat) (cs : List (String × Trace)) (indent : Nat),
        50 < indent →
        print_brief_trace name (Trace.query q e cw pw ec cs) indent =
          Except.error RustPanic.usizeSubOverflow)
  ∧ (∀ (name q v qid : String) (b e cw pw : Nat) (cs : List (String × Trace))
        (indent : Nat),
        48 < indent → query_time_sum cs ≤ e →
        print_brief_trace name (Trace.root q v qid b e cw pw cs) indent =
          Except.error RustPanic.usizeSubOverflow)
  ∧ (∀ (name q v qid : String) (b e cw pw : Nat) (cs : List (String × Trace))
        (indent : Nat),
        48 < indent →
        (print_brief_trace name (Trace.root q v qid b e cw pw cs) indent).isOk = false)
  ∧ (∀ (name q v qid : String) (b e cw pw : Nat) (cs : List (String × Trace)),
        children_query_only cs = true → children_max_depth cs ≤ 25 →
        query_time_sum cs ≤ e →
        ∃ out, print_brief_trace name (Trace.root q v qid b e cw pw cs) 0 =
          Except.ok out) := by
  refine ⟨?_, ?_, ?_, ?_⟩
  · intro name q e cw pw ec cs indent h
    exact pbt_query_err_width name q e cw pw ec cs indent h
  · intro name q v qid b e cw pw cs indent h hqt
    exact pbt_root_err_width name q v qid b e cw pw cs indent hqt h
  · intro name q v qid b e cw pw cs indent h
    exact pbt_root_not_ok name q v qid b e cw pw cs indent h
  · intro name q v qid b e cw pw cs hq hd hqt
    exact render_root_ok name q v qid b e cw pw cs hq hd hqt

/-- Witness: `c10_width_underflow_depth_bound` applied at a `Query` node
at indent 51, a `Root` node at indent 49, and a root holding a chain of
25 nested `Query` levels. -/
theorem c10_width_underflow_depth_bound_witness :
    (50 < 51 ∧ print_brief_trace "x" (Trace.query "q" 1 0 0 2 []) 51 =
      Except.error RustPanic.usizeSubOverflow)
  ∧ (48 < 49 ∧ query_time_sum [] ≤ 5 ∧
      print_brief_trace "x" (Trace.root "q" "v" "i" 0 5 0 0 []) 49 =
        Except.error RustPanic.usizeSubOverflow)
  ∧ (48 < 49 ∧
      (print_brief_trace "x" (Trace.root "q" "v" "i" 0 5 0 0 []) 49).isOk = false)
  ∧ (children_query_only [("c", c10_deep)] = true ∧
      children_max_depth [("c", c10_deep)] = 25 ∧
      query_time_sum [("c", c10_deep)] = 1 ∧
      ∃ out, print_brief_trace "root" (Trace.root "q" "v" "i" 0 1 0 0 [("c", c10_deep)]) 0 =
        Except.ok out) := by
  obtain ⟨h1, h2, h3, h4⟩ := c10_width_underflow_depth_bound
  refine ⟨⟨by decide, h1 "x" "q" 1 0 0 2 [] 51 (by decide)⟩,
    ⟨by decide, by decide, h2 "x" "q" "v" "i" 0 5 0 0 [] 49 (by decide) (by decide)⟩,
    ⟨by decide, h3 "x" "q" "v" "i" 0 5 0 0 [] 49 (by decide)⟩,
    ⟨by decide, by decide, by decide,
      h4 "root" "q" "v" "i" 0 1 0 0 [("c", c10_deep)] (by decide) (by decide) (by decide)⟩⟩

